import Mathlib

/-!
Shallow embedding of `src/main.py` (Internet_Speed_Test): the function
`test_internet_speed` drives `num_tests` measurement rounds through the
external `speedtest` client, collects ping / download / upload samples,
computes mean and sample standard deviation, and prints a report table.

The external speedtest client is modelled as an oracle (`Client`) giving, for
each round, the ping value read from `st.results.ping` and the results of
`st.download()` / `st.upload()` (either a bits-per-second value or one of the
library's exception classes).  Console output is modelled as a list of
structured lines (`OutLine`), side effects on the process as an `Outcome`,
and the calls made to the client as a trace of `Event`s.

Python floats are modelled as rationals (ℚ); `x ** 0.5` is `Real.sqrt` at the
statement level.  Python's `ZeroDivisionError` on `a / 0` is modelled by the
`Option` result of `summarize` (division happens in the `else:` block, where
the surrounding `try` handlers do NOT catch it, so it aborts the run).
-/

/-- The exception categories raised by the `speedtest` library, as discriminated
by the `except` clauses of `test_internet_speed` (lines 68-82 of main.py).
Python's dispatch tries `ConfigRetrievalError`, `NoMatchedServers`,
`ServersRetrievalError`, then the base `SpeedtestException`, then `Exception`;
the five constructors are the five disjoint categories this dispatch yields.
`speedtestException` is a `SpeedtestException` that is none of the first three;
`unexpected` is any error that is not a `SpeedtestException` at all.  The
generic categories carry the message interpolated into the printed line. -/
inductive SpeedtestError where
  | configRetrievalError
  | noMatchedServers
  | serversRetrievalError
  | speedtestException (msg : String)
  | unexpected (msg : String)
  deriving DecidableEq, Repr

/-- Calls made to the external client, recorded in order of occurrence. -/
inductive Event where
  | getBestServerCall
  | pingRead
  | downloadCall
  | uploadCall
  | convertAndAppend
  deriving DecidableEq, Repr

/-- One line of console output.  A `metricRow` is one row of the results
table: three fixed-width columns (label, mean, std dev); the printed std dev
is `Real.sqrt` of the stored `variance` field (the code computes
`variance ** 0.5`).  `separatorLine` stores the separator string printed by
`print("-" * 60)`. -/
inductive OutLine where
  | timestampLine
  | fetchingLine
  | performingLine
  | runningTestLine (i n : ℕ)
  | errorLine (msg : String)
  | resultsBanner (n : ℕ)
  | headerLine
  | separatorLine (s : String)
  | metricRow (label : String) (mean variance : ℚ)
  | completedBanner
  deriving DecidableEq, Repr

/-- How the process ends.  `exit code`: `sys.exit(code)` was called, or the
script returned normally (code 0, since `test_internet_speed()` is the last
statement of the script).  `reraise e`: the bare `raise` in the
`except Exception` clause re-raised `e`, leaving termination to the runtime's
default unhandled-error behaviour.  `uncaughtZeroDiv`: a `ZeroDivisionError`
in the statistics of the `else:` block propagated uncaught (the `except`
clauses of a `try` statement do not cover its `else` suite). -/
inductive Outcome where
  | exit (code : ℕ)
  | reraise (e : SpeedtestError)
  | uncaughtZeroDiv
  deriving DecidableEq, Repr

/-- Oracle for the external speedtest client: the behaviour of
`speedtest.Speedtest()` (config retrieval), `st.get_best_server()`, the
`st.results.ping` attribute read in round `i`, and `st.download()` /
`st.upload()` in round `i` (returning bits per second or raising). -/
structure Client where
  config : Except SpeedtestError Unit
  bestServer : Except SpeedtestError Unit
  ping : ℕ → ℚ
  download : ℕ → Except SpeedtestError ℚ
  upload : ℕ → Except SpeedtestError ℚ

/-- The local mutable state of the measurement loop: the three sample lists
(lines 32-34 of main.py), plus the console output and call trace so far. -/
structure LoopState where
  pings : List ℚ
  download_speeds : List ℚ
  upload_speeds : List ℚ
  out : List OutLine
  tr : List Event
  deriving Repr

/-- The observable result of one run of `test_internet_speed`: everything
printed, the final sample lists, the trace of external calls, and the outcome. -/
structure RunResult where
  out : List OutLine
  pings : List ℚ
  download_speeds : List ℚ
  upload_speeds : List ℚ
  tr : List Event
  outcome : Outcome
  deriving Repr

/-- `num_tests = 5` (line 31 of main.py). -/
def num_tests : ℕ := 5

/-- The separator printed by `print("-" * 60)` (line 100 of main.py). -/
def dashLine : String := String.mk (List.replicate 60 '-')

/-- The mean and variance computed for one metric `xs` (lines 85-96 of
main.py): `mean = sum(xs) / num_tests` and
`variance = sum((x - mean) ** 2 for x in xs) / (num_tests - 1)`; the code
then prints `variance ** 0.5` as the std dev.  Both divisions are by plain
Python ints, so a zero divisor raises `ZeroDivisionError`: `none` models that
(`n = 0` would fail in the mean, `n = 1` fails in the variance, since the
divisor `num_tests - 1` is then `0`). -/
def summarize (n : ℕ) (xs : List ℚ) : Option (ℚ × ℚ) :=
  if n = 0 then none
  else
    let m := xs.sum / (n : ℚ)
    if n = 1 then none
    else some (m, (xs.map (fun x => (x - m) ^ 2)).sum / ((n : ℚ) - 1))

/-- The `except` clauses (lines 68-82 of main.py): the printed diagnostic line
and the resulting outcome for each error category.  The first four print one
line and call `sys.exit(1)`; an unclassified error prints one line and then
re-raises the same error with a bare `raise` (no `sys.exit`). -/
def handleError : SpeedtestError → OutLine × Outcome
  | .configRetrievalError =>
      (.errorLine "Error: Unable to retrieve configuration from Speedtest.net.", .exit 1)
  | .noMatchedServers =>
      (.errorLine "Error: No matched servers for testing.", .exit 1)
  | .serversRetrievalError =>
      (.errorLine "Error: Unable to retrieve speed test server list.", .exit 1)
  | .speedtestException msg =>
      (.errorLine ("Speedtest failed: " ++ msg), .exit 1)
  | .unexpected msg =>
      (.errorLine ("An unexpected error occurred: " ++ msg), .reraise (.unexpected msg))

/-- One iteration of the `for i in tqdm(range(num_tests))` loop (lines 47-66
of main.py): print the progress line, read `st.results.ping`, call
`st.download()`, call `st.upload()`, convert both speeds from bits per second
to megabits per second by dividing by 1,000,000, and append the three sample
values.  A raising call aborts the round with the partially updated state. -/
def stepRound (n : ℕ) (c : Client) (i : ℕ) (s : LoopState) :
    Except (SpeedtestError × LoopState) LoopState :=
  let p := c.ping i
  let s1 : LoopState :=
    { s with out := s.out ++ [OutLine.runningTestLine (i + 1) n],
             tr := s.tr ++ [Event.pingRead] }
  match c.download i with
  | .error e => .error (e, { s1 with tr := s1.tr ++ [Event.downloadCall] })
  | .ok d =>
    let s2 : LoopState := { s1 with tr := s1.tr ++ [Event.downloadCall] }
    match c.upload i with
    | .error e => .error (e, { s2 with tr := s2.tr ++ [Event.uploadCall] })
    | .ok u =>
      let s3 : LoopState := { s2 with tr := s2.tr ++ [Event.uploadCall] }
      .ok { s3 with
              pings := s3.pings ++ [p],
              download_speeds := s3.download_speeds ++ [d / 1000000],
              upload_speeds := s3.upload_speeds ++ [u / 1000000],
              tr := s3.tr ++ [Event.convertAndAppend] }

/-- The measurement loop over the round indices `l` (in the code,
`range(num_tests)`): a raising round aborts the whole loop. -/
def runLoopAux (n : ℕ) (c : Client) : List ℕ → LoopState →
    Except (SpeedtestError × LoopState) LoopState
  | [], s => .ok s
  | i :: is, s =>
    match stepRound n c i s with
    | .error r => .error r
    | .ok s' => runLoopAux n c is s'

/-- Loop state on entry to the `for` loop: empty sample lists, the three
status lines already printed (lines 39, 42, 45 of main.py), and the
`get_best_server()` call already made. -/
def initLoopState : LoopState :=
  ⟨[], [], [], [OutLine.timestampLine, OutLine.fetchingLine, OutLine.performingLine],
   [Event.getBestServerCall]⟩

/-- The seven lines printed by the `else:` block on success (lines 98-104 of
main.py): opening banner, column header, 60-dash separator, one row per
metric (ping in ms, download in Mbps, upload in Mbps), closing banner. -/
def reportLines (n : ℕ) (mp vp md vd mu vu : ℚ) : List OutLine :=
  [OutLine.resultsBanner n, OutLine.headerLine, OutLine.separatorLine dashLine,
   OutLine.metricRow "Ping (ms)" mp vp,
   OutLine.metricRow "Download Speed (Mbps)" md vd,
   OutLine.metricRow "Upload Speed (Mbps)" mu vu,
   OutLine.completedBanner]

/-- `test_internet_speed` with the repetition constant as a parameter `n`
(the code fixes `n = num_tests = 5` at line 31).  Mirrors lines 36-104 of
main.py: print the timestamp, construct `speedtest.Speedtest()` (which
retrieves the configuration and may raise), print the status line, call
`get_best_server()` (which may raise), print the status line, run the loop;
a caught error prints its diagnostic and exits with code 1 (or re-raises);
otherwise the `else:` block computes the statistics (in Python a zero divisor
there raises an uncaught `ZeroDivisionError`, the wildcard branch) and prints
the report.  Normal return means process exit code 0. -/
def test_internet_speed_n (n : ℕ) (c : Client) : RunResult :=
  match c.config with
  | .error e =>
      ⟨[OutLine.timestampLine] ++ [(handleError e).1], [], [], [], [], (handleError e).2⟩
  | .ok _ =>
    match c.bestServer with
    | .error e =>
        ⟨[OutLine.timestampLine, OutLine.fetchingLine] ++ [(handleError e).1],
         [], [], [], [Event.getBestServerCall], (handleError e).2⟩
    | .ok _ =>
      match runLoopAux n c (List.range n) initLoopState with
      | .error (e, s) =>
          ⟨s.out ++ [(handleError e).1], s.pings, s.download_speeds, s.upload_speeds,
           s.tr, (handleError e).2⟩
      | .ok s =>
        match summarize n s.pings, summarize n s.download_speeds,
              summarize n s.upload_speeds with
        | some (mp, vp), some (md, vd), some (mu, vu) =>
            ⟨s.out ++ reportLines n mp vp md vd mu vu, s.pings, s.download_speeds,
             s.upload_speeds, s.tr, Outcome.exit 0⟩
        | _, _, _ =>
            ⟨s.out, s.pings, s.download_speeds, s.upload_speeds, s.tr,
             Outcome.uncaughtZeroDiv⟩

/-- The program as shipped: `test_internet_speed` with `num_tests = 5`. -/
def test_internet_speed (c : Client) : RunResult :=
  test_internet_speed_n num_tests c

/-- The first error the external client raises during a run with repetition
count `n`, if any — the error reaching the `except` clauses.  Mirrors the
control flow of `test_internet_speed_n` exactly. -/
def raisedError (n : ℕ) (c : Client) : Option SpeedtestError :=
  match c.config with
  | .error e => some e
  | .ok _ =>
    match c.bestServer with
    | .error e => some e
    | .ok _ =>
      match runLoopAux n c (List.range n) initLoopState with
      | .error (e, _) => some e
      | .ok _ => none

/-- Is this output line a row of the results table? -/
def isRow : OutLine → Bool
  | .metricRow _ _ _ => true
  | _ => false

/-- The four error categories the code catches and reports (everything except
an unclassified `Exception`). -/
def recognized : SpeedtestError → Bool
  | .unexpected _ => false
  | _ => true

/-- The trace of one successful loop round. -/
def roundTrace : List Event :=
  [Event.pingRead, Event.downloadCall, Event.uploadCall, Event.convertAndAppend]

/-- The trace of `n` successful loop rounds. -/
def loopTrace : ℕ → List Event
  | 0 => []
  | n + 1 => roundTrace ++ loopTrace n

/-- A client whose every call succeeds: ping 10 ms, download 5,000,000 bits/s,
upload 3,000,000 bits/s in every round. -/
def okClient : Client :=
  ⟨.ok (), .ok (), fun _ => 10, fun _ => .ok 5000000, fun _ => .ok 3000000⟩

/-- A client for which `get_best_server()` raises `NoMatchedServers`. -/
def noServerClient : Client :=
  ⟨.ok (), .error .noMatchedServers, fun _ => 10, fun _ => .ok 5000000,
   fun _ => .ok 3000000⟩

/-- A client for which `speedtest.Speedtest()` raises `ConfigRetrievalError`. -/
def configErrClient : Client :=
  ⟨.error .configRetrievalError, .ok (), fun _ => 10, fun _ => .ok 5000000,
   fun _ => .ok 3000000⟩

/-- A client whose first `st.download()` call raises an error that is not a
`SpeedtestException`. -/
def unexpectedClient : Client :=
  ⟨.ok (), .ok (), fun _ => 10, fun _ => .error (.unexpected "boom"),
   fun _ => .ok 3000000⟩

theorem stepRound_ok_spec (n : ℕ) (c : Client) (i : ℕ) (s s' : LoopState)
    (h : stepRound n c i s = .ok s') :
    s'.tr = s.tr ++ roundTrace ∧
    s'.pings.length = s.pings.length + 1 ∧
    s'.download_speeds.length = s.download_speeds.length + 1 ∧
    s'.upload_speeds.length = s.upload_speeds.length + 1 ∧
    s'.out.filter isRow = s.out.filter isRow := by
  unfold stepRound at h
  rcases hd : c.download i with e | d <;> rw [hd] at h
  · simp at h
  · rcases hu : c.upload i with e | u <;> rw [hu] at h
    · simp at h
    · simp only [Except.ok.injEq] at h
      subst h
      refine ⟨?_, ?_, ?_, ?_, ?_⟩ <;>
        simp [roundTrace, isRow, List.filter_append, List.append_assoc]

theorem stepRound_error_spec (n : ℕ) (c : Client) (i : ℕ) (s : LoopState)
    (e : SpeedtestError) (s' : LoopState)
    (h : stepRound n c i s = .error (e, s')) :
    s'.out.filter isRow = s.out.filter isRow := by
  unfold stepRound at h
  rcases hd : c.download i with e0 | d <;> rw [hd] at h
  · simp only [Except.error.injEq, Prod.mk.injEq] at h
    obtain ⟨-, h⟩ := h
    subst h
    simp [isRow, List.filter_append]
  · rcases hu : c.upload i with e0 | u <;> rw [hu] at h
    · simp only [Except.error.injEq, Prod.mk.injEq] at h
      obtain ⟨-, h⟩ := h
      subst h
      simp [isRow, List.filter_append]
    · simp at h

theorem runLoopAux_ok_spec (n : ℕ) (c : Client) (l : List ℕ) :
    ∀ (s s' : LoopState), runLoopAux n c l s = .ok s' →
    s'.tr = s.tr ++ loopTrace l.length ∧
    s'.pings.length = s.pings.length + l.length ∧
    s'.download_speeds.length = s.download_speeds.length + l.length ∧
    s'.upload_speeds.length = s.upload_speeds.length + l.length ∧
    s'.out.filter isRow = s.out.filter isRow := by
  induction l with
  | nil =>
    intro s s' h
    simp only [runLoopAux, Except.ok.injEq] at h
    subst h
    simp [loopTrace]
  | cons i is ih =>
    intro s s' h
    unfold runLoopAux at h
    rcases hs : stepRound n c i s with r | s1 <;> rw [hs] at h
    · simp at h
    · obtain ⟨ht1, hp1, hd1, hu1, ho1⟩ := stepRound_ok_spec n c i s s1 hs
      obtain ⟨ht2, hp2, hd2, hu2, ho2⟩ := ih s1 s' h
      simp only [List.length_cons]
      refine ⟨?_, by omega, by omega, by omega, by rw [ho2, ho1]⟩
      rw [ht2, ht1, List.append_assoc]
      rfl

theorem runLoopAux_error_spec (n : ℕ) (c : Client) (l : List ℕ) :
    ∀ (s : LoopState) (e : SpeedtestError) (s' : LoopState),
    runLoopAux n c l s = .error (e, s') →
    s'.out.filter isRow = s.out.filter isRow := by
  induction l with
  | nil =>
    intro s e s' h
    simp [runLoopAux] at h
  | cons i is ih =>
    intro s e s' h
    unfold runLoopAux at h
    rcases hs : stepRound n c i s with ⟨e0, s0⟩ | s1 <;> rw [hs] at h
    · simp only [Except.error.injEq, Prod.mk.injEq] at h
      exact h.2 ▸ stepRound_error_spec n c i s e0 s0 hs
    · rw [ih s1 e s' h, stepRound_ok_spec n c i s s1 hs |>.2.2.2.2]

theorem summarize_of_two_le (n : ℕ) (xs : List ℚ) (h : 2 ≤ n) :
    summarize n xs =
      some (xs.sum / (n : ℚ),
        (xs.map (fun x => (x - xs.sum / (n : ℚ)) ^ 2)).sum / ((n : ℚ) - 1)) := by
  have h0 : ¬ n = 0 := by omega
  have h1 : ¬ n = 1 := by omega
  simp [summarize, h0, h1]

theorem handleError_snd_ne_exit_zero (e : SpeedtestError) :
    (handleError e).2 ≠ Outcome.exit 0 := by
  cases e <;> simp [handleError]

theorem handleError_fst_not_row (e : SpeedtestError) :
    isRow (handleError e).1 = false := by
  cases e <;> simp [handleError, isRow]

theorem initLoopState_no_rows : initLoopState.out.filter isRow = [] := by
  simp [initLoopState, isRow]

/-- Shape of the run when the client raises an error `e` that reaches the
`except` clauses: the output is everything printed so far (which contains no
table row) followed by the handler's diagnostic line, and the outcome is the
handler's outcome. -/
theorem run_error_spec (n : ℕ) (c : Client) (e : SpeedtestError)
    (h : raisedError n c = some e) :
    ∃ pre ps ds us tr,
      test_internet_speed_n n c =
        ⟨pre ++ [(handleError e).1], ps, ds, us, tr, (handleError e).2⟩ ∧
      pre.filter isRow = [] := by
  unfold raisedError at h
  unfold test_internet_speed_n
  rcases hc : c.config with e0 | u <;> rw [hc] at h <;> simp only [hc]
  · simp only [Option.some.injEq] at h
    subst h
    exact ⟨[OutLine.timestampLine], [], [], [], [], rfl, rfl⟩
  · rcases hb : c.bestServer with e0 | u2 <;> rw [hb] at h <;> simp only [hb]
    · simp only [Option.some.injEq] at h
      subst h
      exact ⟨[OutLine.timestampLine, OutLine.fetchingLine], [], [], [],
             [Event.getBestServerCall], rfl, rfl⟩
    · rcases hl : runLoopAux n c (List.range n) initLoopState with ⟨e0, s⟩ | s <;>
        rw [hl] at h <;> simp only [hl]
      · simp only [Option.some.injEq] at h
        subst h
        refine ⟨s.out, s.pings, s.download_speeds, s.upload_speeds, s.tr, rfl, ?_⟩
        rw [runLoopAux_error_spec n c (List.range n) initLoopState e0 s hl]
        exact initLoopState_no_rows
      · simp at h

/-- Shape of the run when no error reaches the `except` clauses and the
repetition count is at least 2: the loop finished in some state `s`, and the
`else:` block appended the full report to `s.out` and exited with code 0. -/
theorem run_ok_spec (n : ℕ) (c : Client) (h2 : 2 ≤ n)
    (h : raisedError n c = none) :
    ∃ s mp vp md vd mu vu,
      runLoopAux n c (List.range n) initLoopState = .ok s ∧
      test_internet_speed_n n c =
        ⟨s.out ++ reportLines n mp vp md vd mu vu, s.pings, s.download_speeds,
         s.upload_speeds, s.tr, Outcome.exit 0⟩ := by
  unfold raisedError at h
  unfold test_internet_speed_n
  rcases hc : c.config with e0 | u <;> rw [hc] at h <;> simp only [hc]
  · simp at h
  · rcases hb : c.bestServer with e0 | u2 <;> rw [hb] at h <;> simp only [hb]
    · simp at h
    · rcases hl : runLoopAux n c (List.range n) initLoopState with ⟨e0, s⟩ | s <;>
        rw [hl] at h <;> simp only [hl]
      · simp at h
      · rw [summarize_of_two_le n s.pings h2,
            summarize_of_two_le n s.download_speeds h2,
            summarize_of_two_le n s.upload_speeds h2]
        exact ⟨s, _, _, _, _, _, _, rfl, rfl⟩

/-- A run that ends with exit code 0 is one in which no error reached the
`except` clauses. -/
theorem exit_zero_no_error (n : ℕ) (c : Client)
    (h : (test_internet_speed_n n c).outcome = Outcome.exit 0) :
    raisedError n c = none := by
  rcases he : raisedError n c with - | e
  · rfl
  · obtain ⟨pre, ps, ds, us, tr, heq, -⟩ := run_error_spec n c e he
    rw [heq] at h
    exact absurd h (handleError_snd_ne_exit_zero e)

/-- Explicit form of a successful loop round: progress line printed, the round
trace recorded, and the ping / converted download / converted upload values
appended to the three sample lists. -/
theorem stepRound_eq_of_ok (n : ℕ) (c : Client) (i : ℕ) (s : LoopState)
    (d u : ℚ) (hd : c.download i = Except.ok d) (hu : c.upload i = Except.ok u) :
    stepRound n c i s =
      Except.ok
        ⟨s.pings ++ [c.ping i], s.download_speeds ++ [d / 1000000],
         s.upload_speeds ++ [u / 1000000],
         s.out ++ [OutLine.runningTestLine (i + 1) n], s.tr ++ roundTrace⟩ := by
  unfold stepRound
  rw [hd, hu]
  simp [roundTrace, List.append_assoc]

/-- C1: for two sample values `a` and `b` of one metric, the mean computed by
lines 85-96 of main.py is `(a + b) / 2` and the variance is `(a - b)² / 2`,
so the printed standard deviation (`variance ** 0.5`) is `|a - b| / √2` —
the sample standard deviation with divisor `N - 1` over the samples. -/
theorem c1_two_sample_statistics (a b : ℚ) :
    summarize 2 [a, b] = some ((a + b) / 2, (a - b) ^ 2 / 2) ∧
    Real.sqrt (((a - b) ^ 2 / 2 : ℚ) : ℝ) =
      |(a : ℝ) - (b : ℝ)| / Real.sqrt 2 := by
  constructor
  · rw [summarize_of_two_le 2 [a, b] (by norm_num)]
    push_cast
    simp only [List.map_cons, List.map_nil, List.sum_cons, List.sum_nil,
      Option.some.injEq, Prod.mk.injEq]
    constructor <;> ring
  · push_cast
    rw [Real.sqrt_div (sq_nonneg _), Real.sqrt_sq_eq_abs]

/-- C3: a successful round records the download and upload throughputs
divided by 1,000,000 (bits/s to Mbps); in particular a raw throughput of
5,000,000 bits/s is recorded as 5.0 Mbps. -/
theorem c3_mbps_conversion (n : ℕ) (c : Client) (i : ℕ) (s : LoopState)
    (d u : ℚ) (hd : c.download i = Except.ok d) (hu : c.upload i = Except.ok u) :
    (∃ s', stepRound n c i s = Except.ok s' ∧
       s'.download_speeds = s.download_speeds ++ [d / 1000000] ∧
       s'.upload_speeds = s.upload_speeds ++ [u / 1000000] ∧
       s'.pings = s.pings ++ [c.ping i]) ∧
    (5000000 : ℚ) / 1000000 = 5 := by
  refine ⟨⟨_, stepRound_eq_of_ok n c i s d u hd hu, rfl, rfl, rfl⟩, by norm_num⟩

/-- Witness for C3: round 0 with raw download 5,000,000 bits/s and raw upload
3,000,000 bits/s records 5.0 Mbps and 3.0 Mbps. -/
theorem c3_witness :
    (∃ s', stepRound num_tests okClient 0 initLoopState = Except.ok s' ∧
       s'.download_speeds = initLoopState.download_speeds ++ [(5000000 : ℚ) / 1000000] ∧
       s'.upload_speeds = initLoopState.upload_speeds ++ [(3000000 : ℚ) / 1000000] ∧
       s'.pings = initLoopState.pings ++ [okClient.ping 0]) ∧
    (5000000 : ℚ) / 1000000 = 5 :=
  c3_mbps_conversion num_tests okClient 0 initLoopState 5000000 3000000 rfl rfl

/-- C2: a run that ends with exit code 0 made exactly `num_tests` calls to
`st.download()` and exactly `num_tests` calls to `st.upload()` — one download
and one upload per iteration of `for i in tqdm(range(num_tests))`. -/
theorem c2_call_counts (c : Client)
    (h : (test_internet_speed c).outcome = Outcome.exit 0) :
    (test_internet_speed c).tr.count Event.downloadCall = num_tests ∧
    (test_internet_speed c).tr.count Event.uploadCall = num_tests := by
  have hn := exit_zero_no_error num_tests c h
  obtain ⟨s, mp, vp, md, vd, mu, vu, hl, heq⟩ :=
    run_ok_spec num_tests c (by decide) hn
  obtain ⟨ht, -, -, -, -⟩ :=
    runLoopAux_ok_spec num_tests c (List.range num_tests) initLoopState s hl
  simp only [test_internet_speed, heq]
  rw [ht]
  simp only [List.length_range]
  decide

/-- Witness for C2: a client whose calls all succeed yields exit code 0 and
five download and five upload calls. -/
theorem c2_witness :
    (test_internet_speed okClient).tr.count Event.downloadCall = num_tests ∧
    (test_internet_speed okClient).tr.count Event.uploadCall = num_tests :=
  c2_call_counts okClient (by decide)

/-- C7: in a run that ends with exit code 0, the trace after the
`get_best_server()` call is `num_tests` identical rounds, each of which reads
the ping value first, then performs the download measurement, then the upload
measurement, then converts the two throughputs to Mbps and appends the
round's sample values. -/
theorem c7_round_order (c : Client)
    (h : (test_internet_speed c).outcome = Outcome.exit 0) :
    (test_internet_speed c).tr =
      Event.getBestServerCall ::
        (List.replicate num_tests
          [Event.pingRead, Event.downloadCall, Event.uploadCall,
           Event.convertAndAppend]).flatten := by
  have hn := exit_zero_no_error num_tests c h
  obtain ⟨s, mp, vp, md, vd, mu, vu, hl, heq⟩ :=
    run_ok_spec num_tests c (by decide) hn
  obtain ⟨ht, -, -, -, -⟩ :=
    runLoopAux_ok_spec num_tests c (List.range num_tests) initLoopState s hl
  simp only [test_internet_speed, heq]
  rw [ht]
  simp only [List.length_range]
  decide

/-- Witness for C7: the trace of the all-successful client. -/
theorem c7_witness :
    (test_internet_speed okClient).tr =
      Event.getBestServerCall ::
        (List.replicate num_tests
          [Event.pingRead, Event.downloadCall, Event.uploadCall,
           Event.convertAndAppend]).flatten :=
  c7_round_order okClient (by decide)

/-- C10: a run that ends with exit code 0 collected exactly `num_tests`
samples in each of the three lists, so the divisor `num_tests` used in the
mean computation equals the number of collected samples. -/
theorem c10_sample_counts (c : Client)
    (h : (test_internet_speed c).outcome = Outcome.exit 0) :
    (test_internet_speed c).pings.length = num_tests ∧
    (test_internet_speed c).download_speeds.length = num_tests ∧
    (test_internet_speed c).upload_speeds.length = num_tests := by
  have hn := exit_zero_no_error num_tests c h
  obtain ⟨s, mp, vp, md, vd, mu, vu, hl, heq⟩ :=
    run_ok_spec num_tests c (by decide) hn
  obtain ⟨-, hp, hd, hu, -⟩ :=
    runLoopAux_ok_spec num_tests c (List.range num_tests) initLoopState s hl
  simp only [initLoopState, List.length_nil, List.length_range, Nat.zero_add] at hp hd hu
  simp only [test_internet_speed, heq]
  exact ⟨hp, hd, hu⟩

/-- Witness for C10: the all-successful client collects 5 samples per metric. -/
theorem c10_witness :
    (test_internet_speed okClient).pings.length = num_tests ∧
    (test_internet_speed okClient).download_speeds.length = num_tests ∧
    (test_internet_speed okClient).upload_speeds.length = num_tests :=
  c10_sample_counts okClient (by decide)

/-- C4: if the client raises `NoMatchedServers` at any point of the run, the
program prints the one-line diagnostic
"Error: No matched servers for testing.", exits with status 1, and prints
zero rows of the output table. -/
theorem c4_no_matched_servers (c : Client)
    (h : raisedError num_tests c = some SpeedtestError.noMatchedServers) :
    OutLine.errorLine "Error: No matched servers for testing." ∈
      (test_internet_speed c).out ∧
    (test_internet_speed c).outcome = Outcome.exit 1 ∧
    (test_internet_speed c).out.filter isRow = [] := by
  obtain ⟨pre, ps, ds, us, tr, heq, hpre⟩ := run_error_spec num_tests c _ h
  simp only [test_internet_speed, heq]
  refine ⟨?_, rfl, ?_⟩
  · simp [handleError]
  · rw [List.filter_append, hpre]
    simp [handleError, isRow]

/-- Witness for C4: `get_best_server()` raising `NoMatchedServers`. -/
theorem c4_witness :
    OutLine.errorLine "Error: No matched servers for testing." ∈
      (test_internet_speed noServerClient).out ∧
    (test_internet_speed noServerClient).outcome = Outcome.exit 1 ∧
    (test_internet_speed noServerClient).out.filter isRow = [] :=
  c4_no_matched_servers noServerClient (by decide)

/-- C5: any of the four recognized error categories raised during the run
makes the program print the category's one-line diagnostic and exit with
code 1, reporting no table rows (in particular none of the samples collected
so far); a run in which no error is raised exits with code 0. -/
theorem c5_recognized_errors (c : Client) :
    (∀ e, raisedError num_tests c = some e → recognized e = true →
       (test_internet_speed c).outcome = Outcome.exit 1 ∧
       (handleError e).1 ∈ (test_internet_speed c).out ∧
       (test_internet_speed c).out.filter isRow = []) ∧
    (raisedError num_tests c = none →
       (test_internet_speed c).outcome = Outcome.exit 0) := by
  constructor
  · intro e he hr
    obtain ⟨pre, ps, ds, us, tr, heq, hpre⟩ := run_error_spec num_tests c e he
    simp only [test_internet_speed, heq]
    refine ⟨?_, by simp, ?_⟩
    · cases e <;> simp_all [handleError, recognized]
    · rw [List.filter_append, hpre]
      simp [List.filter_cons, handleError_fst_not_row e]
  · intro hn
    obtain ⟨s, mp, vp, md, vd, mu, vu, hl, heq⟩ :=
      run_ok_spec num_tests c (by decide) hn
    simp only [test_internet_speed, heq]

/-- Witness for C5: a `ConfigRetrievalError` run exits with code 1 and no
table rows, and an error-free run exits with code 0. -/
theorem c5_witness :
    ((test_internet_speed configErrClient).outcome = Outcome.exit 1 ∧
     (handleError SpeedtestError.configRetrievalError).1 ∈
       (test_internet_speed configErrClient).out ∧
     (test_internet_speed configErrClient).out.filter isRow = []) ∧
    (test_internet_speed okClient).outcome = Outcome.exit 0 :=
  ⟨(c5_recognized_errors configErrClient).1 SpeedtestError.configRetrievalError
     (by decide) (by decide),
   (c5_recognized_errors okClient).2 (by decide)⟩

/-- C6: an error that is none of the four recognized categories makes the
program print "An unexpected error occurred: ..." and re-raise the very same
error (the outcome is `reraise`, not an `exit`: termination is left to the
runtime's default unhandled-error behaviour). -/
theorem c6_unclassified_reraise (c : Client) (msg : String)
    (h : raisedError num_tests c = some (SpeedtestError.unexpected msg)) :
    OutLine.errorLine ("An unexpected error occurred: " ++ msg) ∈
      (test_internet_speed c).out ∧
    (test_internet_speed c).outcome =
      Outcome.reraise (SpeedtestError.unexpected msg) := by
  obtain ⟨pre, ps, ds, us, tr, heq, -⟩ := run_error_spec num_tests c _ h
  simp only [test_internet_speed, heq]
  exact ⟨by simp [handleError], rfl⟩

/-- Witness for C6: a download call raising a non-speedtest error. -/
theorem c6_witness :
    OutLine.errorLine ("An unexpected error occurred: " ++ "boom") ∈
      (test_internet_speed unexpectedClient).out ∧
    (test_internet_speed unexpectedClient).outcome =
      Outcome.reraise (SpeedtestError.unexpected "boom") :=
  c6_unclassified_reraise unexpectedClient "boom" (by decide)

/-- C8: with repetition count 1 the divisor `num_tests - 1` of the
standard-deviation computation is 0, so over the single collected sample the
computation fails with a division-by-zero (`summarize 1 [x] = none`), and in
Python this `ZeroDivisionError` is raised in the `else:` block where no
handler catches it: the run aborts visibly (outcome `uncaughtZeroDiv`,
non-zero process exit with a traceback) before any table row is printed —
the error is raised, and not silently swallowed. -/
theorem c8_single_sample_divzero (c : Client) (h : raisedError 1 c = none) :
    (test_internet_speed_n 1 c).outcome = Outcome.uncaughtZeroDiv ∧
    (test_internet_speed_n 1 c).out.filter isRow = [] ∧
    ∀ x : ℚ, summarize 1 [x] = none := by
  have hsum : ∀ xs : List ℚ, summarize 1 xs = none := by
    intro xs; simp [summarize]
  unfold raisedError at h
  unfold test_internet_speed_n
  rcases hc : c.config with e0 | u <;> rw [hc] at h <;> simp only [hc]
  · simp at h
  · rcases hb : c.bestServer with e0 | u2 <;> rw [hb] at h <;> simp only [hb]
    · simp at h
    · rcases hl : runLoopAux 1 c (List.range 1) initLoopState with ⟨e0, s⟩ | s <;>
        rw [hl] at h <;> simp only [hl]
      · simp at h
      · rw [hsum s.pings, hsum s.download_speeds, hsum s.upload_speeds]
        refine ⟨rfl, ?_, fun x => hsum [x]⟩
        rw [runLoopAux_ok_spec 1 c (List.range 1) initLoopState s hl |>.2.2.2.2]
        exact initLoopState_no_rows

/-- Witness for C8: the all-successful client with repetition count 1. -/
theorem c8_witness :
    (test_internet_speed_n 1 okClient).outcome = Outcome.uncaughtZeroDiv ∧
    (test_internet_speed_n 1 okClient).out.filter isRow = [] ∧
    ∀ x : ℚ, summarize 1 [x] = none :=
  c8_single_sample_divzero okClient (by decide)

/-- C9: a run that ends with exit code 0 prints, after the status lines (which
contain no table row), exactly this block: the opening banner, the
three-column header, a separator line consisting of exactly 60 dash
characters, one `metricRow` (label, mean, std dev) for each of the three
metrics — ping in ms, download in Mbps, upload in Mbps — and the closing
banner. -/
theorem c9_report_shape (c : Client)
    (h : (test_internet_speed c).outcome = Outcome.exit 0) :
    (∃ pre mp vp md vd mu vu,
       (test_internet_speed c).out =
         pre ++ [OutLine.resultsBanner num_tests, OutLine.headerLine,
                 OutLine.separatorLine dashLine,
                 OutLine.metricRow "Ping (ms)" mp vp,
                 OutLine.metricRow "Download Speed (Mbps)" md vd,
                 OutLine.metricRow "Upload Speed (Mbps)" mu vu,
                 OutLine.completedBanner] ∧
       pre.filter isRow = []) ∧
    dashLine.toList = List.replicate 60 '-' ∧
    dashLine.length = 60 := by
  have hn := exit_zero_no_error num_tests c h
  obtain ⟨s, mp, vp, md, vd, mu, vu, hl, heq⟩ :=
    run_ok_spec num_tests c (by decide) hn
  refine ⟨⟨s.out, mp, vp, md, vd, mu, vu, ?_, ?_⟩, by decide, by decide⟩
  · simp only [test_internet_speed, heq]
    rfl
  · rw [runLoopAux_ok_spec num_tests c (List.range num_tests) initLoopState s hl
         |>.2.2.2.2]
    exact initLoopState_no_rows

/-- Witness for C9: the report block of the all-successful client. -/
theorem c9_witness :
    (∃ pre mp vp md vd mu vu,
       (test_internet_speed okClient).out =
         pre ++ [OutLine.resultsBanner num_tests, OutLine.headerLine,
                 OutLine.separatorLine dashLine,
                 OutLine.metricRow "Ping (ms)" mp vp,
                 OutLine.metricRow "Download Speed (Mbps)" md vd,
                 OutLine.metricRow "Upload Speed (Mbps)" mu vu,
                 OutLine.completedBanner] ∧
       pre.filter isRow = []) ∧
    dashLine.toList = List.replicate 60 '-' ∧
    dashLine.length = 60 :=
  c9_report_shape okClient (by decide)
